import Mathlib

/-!
# Verification of the vib34d unified pulse game audio-analysis core

Shallow embedding of the numeric core of the repository:

* `UnifiedAudioGameDirector` (src/src/core/UnifiedAudioGameDirector.js):
  beat detection (`detectBeat`), tempo estimation (`calculateTempo`),
  spectral centroid, `getBeatInfo`.
* `AudioDrivenLevelGenerator` (src/unnamed/part_005): band thresholds,
  spawn-event creation, adaptive difficulty scaling.
* `AudioLatencyCompensation` (src/src/audio/AudioLatencyCompensation.js):
  timing-measurement recording, adaptive compensation, compensated
  scheduling.
* `CorrectedVIB34DIntegration` (src/src/core/CorrectedVIB34DIntegration.js):
  coherence-state update, coherent parameter calculation, parameter
  forwarding.
* `AudioReactiveParticleSystem` (src/src/particles/AudioReactiveParticleSystem.js):
  the particle-side spectral centroid.

JavaScript numbers are modelled as `ℚ` where the code is pure rational
arithmetic, and as `ℝ` where the code uses `Math.sin`/`Math.cos`/`Math.PI`/
`Math.log2`.  JavaScript `x || d` on numbers (falsy fallback) is modelled by
`jsOr`.  Linear-scale magnitudes (`10^(dB/20)`) are taken as inputs where a
function only consumes them; a Web Audio silent bin is `-Infinity` dB, whose
linear magnitude is `0`, which is how an all-zero magnitude list arises.
-/

namespace Vib34d

/-- JavaScript `x || d` for numbers: `x` when it is truthy (nonzero),
otherwise the default `d`. -/
def jsOr (x d : ℚ) : ℚ := if x = 0 then d else x

/-! ## Beat & Tempo Tracker (src/src/core/UnifiedAudioGameDirector.js) -/

/-- Mutable state of the beat/tempo tracker in `UnifiedAudioGameDirector`:
`energyHistory` (time/energy pairs, most recent last), `lastBeatTime`,
`beatHistory` (accepted beat timestamps, most recent last), `currentBPM`.
Constructor initialisation (lines 31-32): `currentBPM = 120`,
`lastBeatTime = 0`, empty histories. -/
structure BeatState where
  energyHistory : List (ℚ × ℚ)
  lastBeatTime : ℚ
  beatHistory : List ℚ
  currentBPM : ℚ
deriving DecidableEq

/-- The freshly constructed tracker state. -/
def initialBeatState : BeatState :=
  { energyHistory := [], lastBeatTime := 0, beatHistory := [], currentBPM := 120 }

/-- `list.push(x)` followed by `if (list.length > cap) list.shift()`:
append and drop the oldest entry when the capacity is exceeded. -/
def pushTrim (l : List α) (x : α) (cap : ℕ) : List α :=
  let l' := l ++ [x]
  if cap < l'.length then l'.tail else l'

/-- JavaScript `l.slice(-n)`: the last `n` elements (all of them when the
list is shorter). -/
def lastN (l : List α) (n : ℕ) : List α := l.drop (l.length - n)

/-- The beat-detection threshold (UnifiedAudioGameDirector.js lines 256-258):
`1.5 ×` the mean of the last 10 energy samples (the sum is divided by the
literal 10, exactly as in the source). -/
def beatThreshold (eh : List (ℚ × ℚ)) : ℚ :=
  ((lastN eh 10).map (·.2)).sum / 10 * (3/2)

/-- `detectBeat` (UnifiedAudioGameDirector.js lines 242-278).  Pushes the
current total energy into the 50-entry history; when more than 10 samples
are available, flags a beat iff the current energy exceeds
`1.5 × (mean of the last 10 samples)` **and** strictly more than 300ms have
elapsed since `lastBeatTime`.  On a flagged beat, `lastBeatTime` is set to
`now` and `now` is pushed into the 20-entry beat history.  Returns the new
state, the detected flag and the beat strength. -/
def detectBeat (s : BeatState) (now energy : ℚ) : BeatState × Bool × ℚ :=
  if 10 < (pushTrim s.energyHistory (now, energy) 50).length then
    if beatThreshold (pushTrim s.energyHistory (now, energy) 50) < energy ∧
        300 < now - s.lastBeatTime then
      ({ s with
          energyHistory := pushTrim s.energyHistory (now, energy) 50
          lastBeatTime := now
          beatHistory := pushTrim s.beatHistory now 20 },
        true,
        (energy - beatThreshold (pushTrim s.energyHistory (now, energy) 50)) /
          beatThreshold (pushTrim s.energyHistory (now, energy) 50))
    else
      ({ s with energyHistory := pushTrim s.energyHistory (now, energy) 50 }, false, 0)
  else
    ({ s with energyHistory := pushTrim s.energyHistory (now, energy) 50 }, false, 0)

/-- Run `detectBeat` over a list of `(now, energy)` samples, collecting the
timestamps of the accepted beats in processing order. -/
def runBeats (s : BeatState) : List (ℚ × ℚ) → List ℚ
  | [] => []
  | (t, e) :: rest =>
      let r := detectBeat s t e
      (if r.2.1 then [t] else []) ++ runBeats r.1 rest

/-- Consecutive deltas `l[i+1] - l[i]` of a beat-history list
(`calculateTempo` lines 283-286). -/
def intervalsOf (l : List ℚ) : List ℚ :=
  (l.zip l.tail).map fun p => p.2 - p.1

/-- The mean consecutive beat-history interval (`avgInterval`,
UnifiedAudioGameDirector.js line 288). -/
def meanInterval (l : List ℚ) : ℚ :=
  (intervalsOf l).sum / (intervalsOf l).length

/-- `calculateTempo` (UnifiedAudioGameDirector.js lines 280-295).  With
fewer than 4 recorded beats the state is unchanged and the stored BPM is
returned.  Otherwise the new BPM `60000 / avgInterval` is blended into the
**stored** `currentBPM` as `0.8×old + 0.2×new` — the store is *not*
clamped — and only the *returned* value is `max 60 (min 200 stored)`
(line 294). -/
def calculateTempo (s : BeatState) : BeatState × ℚ :=
  if s.beatHistory.length < 4 then (s, s.currentBPM)
  else
    ({ s with currentBPM :=
        s.currentBPM * (4/5) + (60000 / meanInterval s.beatHistory) * (1/5) },
      max 60 (min 200
        (s.currentBPM * (4/5) + (60000 / meanInterval s.beatHistory) * (1/5))))

/-- The record returned by `getBeatInfo` (lines 438-445): the **stored**
`currentBPM` (not the clamped return of `calculateTempo`), the last beat
time, and `now - lastBeatTime`. -/
structure BeatInfo where
  bpm : ℚ
  lastBeatTime : ℚ
  timeSinceLastBeat : ℚ
  beatHistory : List ℚ
deriving DecidableEq

/-- `getBeatInfo` (UnifiedAudioGameDirector.js lines 438-445). -/
def getBeatInfo (s : BeatState) (now : ℚ) : BeatInfo :=
  { bpm := s.currentBPM
    lastBeatTime := s.lastBeatTime
    timeSinceLastBeat := now - s.lastBeatTime
    beatHistory := s.beatHistory }

/-- `getCurrentBPM` (line 420-422): the stored, unclamped `currentBPM`. -/
def getCurrentBPM (s : BeatState) : ℚ := s.currentBPM

end Vib34d

namespace Vib34d

/-- Refractory step lemma: a flagged beat is strictly more than 300ms after
the tracked `lastBeatTime`, and sets `lastBeatTime` to the beat's time. -/
theorem detectBeat_flag_gap (s : BeatState) (now energy : ℚ)
    (h : (detectBeat s now energy).2.1 = true) :
    300 < now - s.lastBeatTime ∧ (detectBeat s now energy).1.lastBeatTime = now := by
  unfold detectBeat at h ⊢
  by_cases h10 : 10 < (pushTrim s.energyHistory (now, energy) 50).length
  · rw [if_pos h10] at h ⊢
    by_cases hc : beatThreshold (pushTrim s.energyHistory (now, energy) 50) < energy ∧
        300 < now - s.lastBeatTime
    · rw [if_pos hc]
      exact ⟨hc.2, rfl⟩
    · rw [if_neg hc] at h
      simp at h
  · rw [if_neg h10] at h
    simp at h

/-- No-flag step lemma: when no beat is flagged, `lastBeatTime` is kept. -/
theorem detectBeat_noflag_lastBeat (s : BeatState) (now energy : ℚ)
    (h : (detectBeat s now energy).2.1 = false) :
    (detectBeat s now energy).1.lastBeatTime = s.lastBeatTime := by
  unfold detectBeat at h ⊢
  by_cases h10 : 10 < (pushTrim s.energyHistory (now, energy) 50).length
  · rw [if_pos h10] at h ⊢
    by_cases hc : beatThreshold (pushTrim s.energyHistory (now, energy) 50) < energy ∧
        300 < now - s.lastBeatTime
    · rw [if_pos hc] at h
      simp at h
    · rw [if_neg hc]
  · rw [if_neg h10]

/-- **C2.** For every initial tracker state and every input sequence of
`(timestamp, energy)` samples, the accepted-beat timestamps collected by
`runBeats` form a chain in which each beat is strictly more than 300ms after
the immediately preceding accepted beat (and the first accepted beat is
strictly more than 300ms after the initial `lastBeatTime`): no beat is ever
accepted within 300ms of the immediately preceding accepted beat. -/
theorem C2_beat_refractory (s : BeatState) (inputs : List (ℚ × ℚ)) :
    List.Chain' (fun tPrev tNext => 300 < tNext - tPrev)
      (s.lastBeatTime :: runBeats s inputs) := by
  induction inputs generalizing s with
  | nil => simp [runBeats]
  | cons p rest ih =>
      obtain ⟨t, e⟩ := p
      by_cases hd : (detectBeat s t e).2.1 = true
      · have hg := detectBeat_flag_gap s t e hd
        have hrun : runBeats s ((t, e) :: rest) =
            t :: runBeats (detectBeat s t e).1 rest := by
          simp [runBeats, hd]
        rw [hrun]
        refine List.Chain'.cons hg.1 ?_
        have h' := ih (detectBeat s t e).1
        rwa [hg.2] at h'
      · have hb : (detectBeat s t e).2.1 = false := by
          simpa using hd
        have hl := detectBeat_noflag_lastBeat s t e hb
        have hrun : runBeats s ((t, e) :: rest) =
            runBeats (detectBeat s t e).1 rest := by
          simp [runBeats, hb]
        rw [hrun]
        have h' := ih (detectBeat s t e).1
        rwa [hl] at h'

/-- A tracker state whose four recorded beats are 1ms apart: the blended
BPM stored by `calculateTempo` explodes far beyond 200. -/
def bpmRunawayState : BeatState :=
  { energyHistory := [], lastBeatTime := 3, beatHistory := [0, 1, 2, 3], currentBPM := 120 }

/-- **C5** (counterexample).  With beat history `[0, 1, 2, 3]` (mean
interval 1ms, so `newBPM = 60000`) and previous BPM 120, `calculateTempo`
stores `0.8×120 + 0.2×60000 = 12096` in `currentBPM` — far outside
`[60, 200]` — and `getBeatInfo` hands that unclamped value to readers.
The claim that the stored state always lies within `[60, 200]` is false. -/
theorem C5_counterexample :
    (calculateTempo bpmRunawayState).1.currentBPM = 12096 ∧
      ¬ (calculateTempo bpmRunawayState).1.currentBPM ≤ 200 ∧
      (getBeatInfo (calculateTempo bpmRunawayState).1 3).bpm = 12096 := by
  norm_num [calculateTempo, bpmRunawayState, meanInterval, intervalsOf, getBeatInfo,
    List.zip]

/-- A well-behaved four-beat state used to witness the amended C5. -/
def tempoExample : BeatState :=
  { energyHistory := [], lastBeatTime := 1500, beatHistory := [0, 500, 1000, 1500],
    currentBPM := 120 }

/-- **C5** (amended).  After a tempo recomputation with at least 4
beat-history samples, the *stored* `currentBPM` equals
`0.8 × previous + 0.2 × (60000 / mean consecutive interval)` with **no
clamp**; the `[60, 200]` clamp applies only to `calculateTempo`'s return
value, and readers such as `getBeatInfo` and `getCurrentBPM` see the
unclamped stored value. -/
theorem C5_tempo_blend_unclamped (s : BeatState) (now : ℚ)
    (h : 4 ≤ s.beatHistory.length) :
    (calculateTempo s).1.currentBPM
        = s.currentBPM * (4/5) + (60000 / meanInterval s.beatHistory) * (1/5) ∧
      60 ≤ (calculateTempo s).2 ∧
      (calculateTempo s).2 ≤ 200 ∧
      (getBeatInfo (calculateTempo s).1 now).bpm = (calculateTempo s).1.currentBPM ∧
      getCurrentBPM (calculateTempo s).1 = (calculateTempo s).1.currentBPM := by
  have hlt : ¬ s.beatHistory.length < 4 := not_lt.mpr h
  unfold calculateTempo
  rw [if_neg hlt]
  refine ⟨rfl, le_max_left _ _, max_le (by norm_num) (min_le_left _ _), rfl, rfl⟩

/-- Witness for the amended C5 at the concrete state `tempoExample`. -/
theorem C5_tempo_blend_unclamped_witness :
    4 ≤ tempoExample.beatHistory.length ∧
      ((calculateTempo tempoExample).1.currentBPM
          = tempoExample.currentBPM * (4/5)
            + (60000 / meanInterval tempoExample.beatHistory) * (1/5) ∧
        60 ≤ (calculateTempo tempoExample).2 ∧
        (calculateTempo tempoExample).2 ≤ 200 ∧
        (getBeatInfo (calculateTempo tempoExample).1 2000).bpm
          = (calculateTempo tempoExample).1.currentBPM ∧
        getCurrentBPM (calculateTempo tempoExample).1
          = (calculateTempo tempoExample).1.currentBPM) :=
  ⟨by decide, C5_tempo_blend_unclamped tempoExample 2000 (by decide)⟩

/-! ## Procedural Event Generator (`AudioDrivenLevelGenerator`, src/unnamed/part_005) -/

/-- The five named frequency bands of `frequencyRanges` (part_005
lines 26-32). -/
inductive Band
  | bass
  | lowMid
  | mid
  | highMid
  | treble
deriving DecidableEq

/-- One entry of the `frequencyRanges` band→geometry/interaction table. -/
structure BandRange where
  minHz : ℚ
  maxHz : ℚ
  geometry : String
  interaction : String

/-- The `frequencyRanges` table (part_005 lines 26-32). -/
def frequencyRanges : Band → BandRange
  | .bass => ⟨0, 250, "hypersphere", "pulse"⟩
  | .lowMid => ⟨250, 500, "tesseract", "tap"⟩
  | .mid => ⟨500, 2000, "24cell", "hold"⟩
  | .highMid => ⟨2000, 4000, "600cell", "swipe"⟩
  | .treble => ⟨4000, 8000, "120cell", "avoid"⟩

/-- The `quadrantMapping` table (part_005 lines 35-41). -/
def quadrantMapping : Band → ℕ
  | .bass => 3
  | .lowMid => 1
  | .mid => 2
  | .highMid => 4
  | .treble => 0

/-- The `baseThresholds` table inside `getThresholdForBand` (part_005
lines 345-351). -/
def baseThreshold : Band → ℚ
  | .bass => 1/10
  | .lowMid => 3/20
  | .mid => 1/5
  | .highMid => 1/4
  | .treble => 3/10

/-- `getThresholdForBand` (part_005 lines 343-354): the base threshold
**multiplied** by the adaptive difficulty multiplier
`runStats.adaptivesDifficulty`. -/
def getThresholdForBand (b : Band) (adaptivesDifficulty : ℚ) : ℚ :=
  baseThreshold b * adaptivesDifficulty

/-- The per-band beat-subdivision table inside `calculateSpawnDelay`
(part_005 lines 360-367). -/
def subdivisions : Band → ℚ
  | .bass => 1
  | .lowMid => 1/2
  | .mid => 1/4
  | .highMid => 3/4
  | .treble => 2

/-- `calculateSpawnDelay` (part_005 lines 356-369):
`(60000 / tempo) × subdivision`. -/
def calculateSpawnDelay (b : Band) (tempo : ℚ) : ℚ :=
  60000 / tempo * subdivisions b

/-- The per-band `{energy, peak, dominance}` record. -/
structure BandData where
  energy : ℚ
  peak : ℚ
  dominance : ℚ

/-- `VisualTelegraphSystem.config.telegraphDuration` (src/unnamed/part_007
line 31): the 3-second telegraph warning. -/
def telegraphConfigDuration : ℚ := 3000

/-- Modelled from the spec: `calculateTelegraphDuration` is called at
part_005 line 224 but its definition is missing from the sources.  The spec
states that `telegraphDurationMs` is always ≥3000ms regardless of
difficulty (the hard fairness invariant), with 3000ms being the telegraph
system's configured warning time (part_007 line 31); we model it as the
configured minimum clamped over an arbitrary difficulty-dependent
adjustment `adjust`. -/
def calculateTelegraphDuration (adjust : ℚ → ℚ) (difficulty : ℚ) : ℚ :=
  max telegraphConfigDuration (adjust difficulty)

/-- The `geometry_spawn` event object built by `createEventFromBand`
(part_005 lines 199-228). -/
structure SpawnEvent where
  geometry : String
  interaction : String
  quadrant : ℕ
  energy : ℚ
  peak : ℚ
  spawnTime : ℚ
  difficulty : ℚ
  telegraphDuration : ℚ

/-- `createEventFromBand` (part_005 lines 199-228).  `calcDiff` stands for
the (missing from the sources) `calculateEventDifficulty`, applied to the
band data and `runStats.adaptivesDifficulty`; `adjust` is the
difficulty-dependent part of the modelled `calculateTelegraphDuration`. -/
def createEventFromBand (adjust : ℚ → ℚ) (calcDiff : BandData → ℚ → ℚ)
    (b : Band) (bd : BandData) (now tempo adaptivesDifficulty : ℚ) : SpawnEvent :=
  { geometry := (frequencyRanges b).geometry
    interaction := (frequencyRanges b).interaction
    quadrant := quadrantMapping b
    energy := bd.energy
    peak := bd.peak
    spawnTime := now + calculateSpawnDelay b tempo
    difficulty := calcDiff bd adaptivesDifficulty
    telegraphDuration :=
      calculateTelegraphDuration adjust (calcDiff bd adaptivesDifficulty) }

/-- The multiplier update in `scaleDifficultyBasedOnPerformance`
(part_005 lines 271-283): nudged up 5% above 0.8 recent accuracy, down 5%
below 0.5, clamped to `[0.5, 3.0]`. -/
def scaleAdaptiveDifficulty (recentPerformance adaptivesDifficulty : ℚ) : ℚ :=
  if 4/5 < recentPerformance then min 3 (adaptivesDifficulty * (21/20))
  else if recentPerformance < 1/2 then max (1/2) (adaptivesDifficulty * (19/20))
  else adaptivesDifficulty

/-- The per-event scaling loop of `scaleDifficultyBasedOnPerformance`
(part_005 lines 285-289): `event.difficulty` is multiplied by the
multiplier when it is truthy; `telegraphDuration` is never touched. -/
def scaleEventDifficulty (adaptivesDifficulty : ℚ) (e : SpawnEvent) : SpawnEvent :=
  if e.difficulty = 0 then e
  else { e with difficulty := e.difficulty * adaptivesDifficulty }

/-- **C1.** For every modelled telegraph adjustment and event-difficulty
function, every band, every band data, every timestamp/tempo, and every
adaptive difficulty multiplier (before and after the per-event difficulty
scaling pass), the emitted spawn event's `telegraphDuration` is at least
3000ms: no event is created with less than 3 seconds of advance warning. -/
theorem C1_telegraph_at_least_3000 (adjust : ℚ → ℚ) (calcDiff : BandData → ℚ → ℚ)
    (b : Band) (bd : BandData) (now tempo d d' : ℚ) :
    3000 ≤ (scaleEventDifficulty d'
      (createEventFromBand adjust calcDiff b bd now tempo d)).telegraphDuration := by
  have hscale : ∀ e : SpawnEvent,
      (scaleEventDifficulty d' e).telegraphDuration = e.telegraphDuration := by
    intro e
    unfold scaleEventDifficulty
    split <;> rfl
  rw [hscale]
  exact le_max_left _ _

/-- **C6** (counterexample).  For the bass band and multipliers
`d1 = 1 < d2 = 2` (both within `[0.5, 3.0]`), the adaptive threshold at the
harder multiplier is `0.2`, *higher* than the `0.1` at the easier one — the
claim that the threshold is monotonically decreasing in the multiplier is
false. -/
theorem C6_counterexample :
    getThresholdForBand Band.bass 1 = 1/10 ∧
      getThresholdForBand Band.bass 2 = 1/5 ∧
      ¬ getThresholdForBand Band.bass 2 < getThresholdForBand Band.bass 1 := by
  norm_num [getThresholdForBand, baseThreshold]

/-- **C6** (amended).  For every band, the adaptive spawn threshold is
monotonically *increasing* in the difficulty multiplier: for multipliers
`d1 < d2` within `[0.5, 3.0]`, the threshold at `d2` is strictly higher
(a harder multiplier yields a higher energy bar, hence *fewer* spawn
events at the same band energy). -/
theorem C6_threshold_increasing (b : Band) (d1 d2 : ℚ)
    (_h1 : 1/2 ≤ d1) (h12 : d1 < d2) (_h2 : d2 ≤ 3) :
    getThresholdForBand b d1 < getThresholdForBand b d2 := by
  have hb : 0 < baseThreshold b := by
    cases b <;> norm_num [baseThreshold]
  unfold getThresholdForBand
  exact mul_lt_mul_of_pos_left h12 hb

/-- Witness for the amended C6 at bass, `d1 = 1`, `d2 = 2`. -/
theorem C6_threshold_increasing_witness :
    (1/2 : ℚ) ≤ 1 ∧ (1 : ℚ) < 2 ∧ (2 : ℚ) ≤ 3 ∧
      getThresholdForBand Band.bass 1 < getThresholdForBand Band.bass 2 :=
  ⟨by norm_num, by norm_num, by norm_num,
    C6_threshold_increasing Band.bass 1 2 (by norm_num) (by norm_num) (by norm_num)⟩

/-! ## Latency Compensator (`AudioLatencyCompensation`,
src/src/audio/AudioLatencyCompensation.js)

The state gathers the fields the adaptation loop reads and writes:
`latencyProfile.adaptiveOffset` together with `adaptation.enabled` and
`adaptation.recentMeasurements`. -/

/-- The mutable adaptation state: `adaptation.enabled`,
`adaptation.recentMeasurements` (timing errors, most recent last) and
`latencyProfile.adaptiveOffset` (constructor values: enabled, empty,
offset 0). -/
structure AdaptationState where
  enabled : Bool
  recentMeasurements : List ℚ
  adaptiveOffset : ℚ
deriving DecidableEq

/-- The freshly constructed compensator state. -/
def initialAdaptationState : AdaptationState :=
  { enabled := true, recentMeasurements := [], adaptiveOffset := 0 }

/-- `adaptation.windowSize` (line 59). -/
def windowSize : ℕ := 50

/-- `adaptation.learningRate` (line 58). -/
def learningRate : ℚ := 1/10

/-- `recordTimingMeasurement` (lines 314-323): push the error
`actual − expected` and drop the oldest entry beyond `windowSize × 2`
measurements. -/
def recordTimingMeasurement (s : AdaptationState) (expected actual : ℚ) :
    AdaptationState :=
  { s with recentMeasurements :=
      pushTrim s.recentMeasurements (actual - expected) (windowSize * 2) }

/-- JavaScript `l.slice(-a, -b)` (for `a ≥ b`): the elements from index
`len − a` (clamped to 0) up to, excluding, index `len − b` (clamped to 0). -/
def sliceNeg (l : List α) (a b : ℕ) : List α :=
  (l.drop (l.length - a)).take ((l.length - b) - (l.length - a))

/-- The recent-window mean of `updateAdaptiveCompensation`
(lines 285-287): the sum of `slice(-windowSize)` divided by
`min(windowSize, length)`. -/
def recentAvgOf (l : List ℚ) : ℚ :=
  (lastN l windowSize).sum / (min windowSize l.length : ℕ)

/-- The prior-window mean of `updateAdaptiveCompensation` (lines 290-292):
the sum of `slice(-windowSize*2, -windowSize)` divided by the same
`min(windowSize, length)` denominator the source uses for both windows. -/
def oldAvgOf (l : List ℚ) : ℚ :=
  (sliceNeg l (windowSize * 2) windowSize).sum / (min windowSize l.length : ℕ)

/-- `updateAdaptiveCompensation` (lines 281-306).  With fewer than 10
measurements nothing happens.  Otherwise the drift trend is the recent
window's mean minus the prior window's mean (never NaN here: the shared
denominator is at least 10), and when the trend exceeds 5ms in magnitude
the offset is nudged by `−trend × learningRate` — with **no clamp** on the
resulting `adaptiveOffset`. -/
def updateAdaptiveCompensation (s : AdaptationState) : AdaptationState :=
  if s.recentMeasurements.length < 10 then s
  else
    if 5 < |recentAvgOf s.recentMeasurements - oldAvgOf s.recentMeasurements| then
      { s with adaptiveOffset := s.adaptiveOffset +
          -(recentAvgOf s.recentMeasurements - oldAvgOf s.recentMeasurements) *
            learningRate }
    else s

/-- `enableEmergencyMode` (lines 409-414): disable adaptation and force a
conservative fixed offset of −100ms. -/
def enableEmergencyMode (s : AdaptationState) : AdaptationState :=
  { s with enabled := false, adaptiveOffset := -100 }

/-- The `compensatedDelay` computed by `scheduleCompensatedEvent`
(lines 325-329): `Math.max(0, delay + adaptiveOffset)`. -/
def compensatedDelay (s : AdaptationState) (delay : ℚ) : ℚ :=
  max 0 (delay + s.adaptiveOffset)

/-- The compensator state after ten timing measurements that each report a
constant +4000ms error, followed by one adaptive-compensation tick. -/
def c8RunawayState : AdaptationState :=
  updateAdaptiveCompensation
    (((List.replicate 10 ((0 : ℚ), (4000 : ℚ))).foldl
      (fun t p => recordTimingMeasurement t p.1 p.2) initialAdaptationState))

/-- **C8.** Evaluating the code at the failing input: after ten recorded
measurements with error +4000ms and a single adaptive update, the stored
`adaptiveOffset` is −400ms, outside the claimed hard bound of ±300ms — no
clamp is applied at the write site (`adaptiveOffset += adjustment`,
line 301). -/
theorem C8_offset_escapes_bound :
    c8RunawayState.adaptiveOffset = -400 ∧ ¬ |c8RunawayState.adaptiveOffset| ≤ 300 := by
  norm_num [c8RunawayState, initialAdaptationState, recordTimingMeasurement,
    updateAdaptiveCompensation, recentAvgOf, oldAvgOf, pushTrim, lastN, sliceNeg,
    windowSize, learningRate, List.replicate, abs]

/-- **C10.** For every compensator state (any adaptive offset, however
negative) and every requested delay, the delay actually passed to the
timer is non-negative, and it is either the compensated value
`delay + adaptiveOffset` or — when over-compensation would make that
negative — exactly 0 (immediate execution), never an invalid negative
timer. -/
theorem C10_compensated_delay_nonneg (s : AdaptationState) (delay : ℚ) :
    0 ≤ compensatedDelay s delay ∧
      (compensatedDelay s delay = delay + s.adaptiveOffset ∨
        compensatedDelay s delay = 0) := by
  refine ⟨le_max_left _ _, ?_⟩
  rcases le_total (delay + s.adaptiveOffset) 0 with h | h
  · right
    exact max_eq_left h
  · left
    exact max_eq_right h

/-! ## Spectral centroid implementations

Both loops consume the *linear-scale* magnitudes `10^(dB/20)` of the
frequency bins.  A Web Audio silent bin reports `-Infinity` dB, whose
linear magnitude is `0`, so an all-silent frame yields an all-zero
magnitude list and a zero denominator; the magnitude list is taken as the
input here. -/

/-- `calculateSpectralCentroid` of the audio director (src/unnamed/part_006
lines 478-490): numerator `Σ binFreq(i) × magᵢ` with
`binFreq(i) = i × (sampleRate/2) / length`, denominator `Σ magᵢ`, guarded
by `denominator > 0 ? numerator/denominator : 440`. -/
def centroidDirector (sampleRate : ℚ) (mags : List ℚ) : ℚ :=
  if 0 < mags.sum then
    (((List.range mags.length).zip mags).map fun p =>
      (p.1 : ℚ) * (sampleRate / 2) / (mags.length : ℚ) * p.2).sum / mags.sum
  else 440

/-- `calculateSpectralCentroid` of the particle system
(src/src/particles/AudioReactiveParticleSystem.js lines 162-173):
numerator `Σ i × magᵢ` over bin indices, denominator `Σ magᵢ`, guarded by
`denominator > 0 ? numerator/denominator : 0`. -/
def centroidParticle (mags : List ℚ) : ℚ :=
  if 0 < mags.sum then
    (((List.range mags.length).zip mags).map fun p => (p.1 : ℚ) * p.2).sum / mags.sum
  else 0

/-- **C7** (counterexample).  On an all-silent frame the particle system's
spectral centroid returns `0`, not the safe default 440Hz, and the function
keeps no previous valid value to fall back to (it is a pure function of the
current frame): the claim that *every* centroid component falls back to the
previous value or 440Hz is false. -/
theorem C7_counterexample :
    centroidParticle [0, 0, 0, 0] = 0 ∧ (0 : ℚ) ≠ 440 := by
  norm_num [centroidParticle]

/-- **C7** (amended).  On every zero-total-magnitude frame each centroid
returns a finite safe constant instead of dividing by zero — 440 in the
audio director, 0 in the particle system — and the `|| 440` coercion the
coherence engine applies when writing `CoherenceState.spectralCentroid`
(CorrectedVIB34DIntegration.js line 260) turns either fallback into 440,
so no degenerate value reaches the coherence state. -/
theorem C7_centroid_safe_defaults (sampleRate : ℚ) (mags : List ℚ)
    (h : mags.sum = 0) :
    centroidDirector sampleRate mags = 440 ∧
      centroidParticle mags = 0 ∧
      jsOr (centroidParticle mags) 440 = 440 ∧
      jsOr (centroidDirector sampleRate mags) 440 = 440 := by
  have hn : ¬ 0 < mags.sum := by
    rw [h]
    exact lt_irrefl 0
  unfold centroidDirector centroidParticle
  rw [if_neg hn, if_neg hn]
  refine ⟨rfl, rfl, by norm_num [jsOr], by norm_num [jsOr]⟩

/-- Witness for the amended C7 on a three-bin silent frame at 48kHz. -/
theorem C7_centroid_safe_defaults_witness :
    ([0, 0, 0] : List ℚ).sum = 0 ∧
      (centroidDirector 48000 [0, 0, 0] = 440 ∧
        centroidParticle [0, 0, 0] = 0 ∧
        jsOr (centroidParticle [0, 0, 0]) 440 = 440 ∧
        jsOr (centroidDirector 48000 [0, 0, 0]) 440 = 440) :=
  ⟨by norm_num, C7_centroid_safe_defaults 48000 [0, 0, 0] (by norm_num)⟩

/-! ## Parameter forwarding (`CorrectedVIB34DIntegration.updateVIB34DParameters`) -/

/-- `updateVIB34DParameters` (CorrectedVIB34DIntegration.js lines 615-624):
for each `(param, value)` entry, when the stored `currentParams[param]`
differs from `value` (strict `!==`, no tolerance) the update is forwarded
to the external sink (`window.updateParameter`) and the stored value is
overwritten; otherwise both the sink call and the store write are skipped.
Returns the list of forwarded calls and the final store. -/
def updateVIB34DParameters (current : String → ℚ) :
    List (String × ℚ) → List (String × ℚ) × (String → ℚ)
  | [] => ([], current)
  | (p, v) :: rest =>
      if current p = v then updateVIB34DParameters current rest
      else
        ((p, v) :: (updateVIB34DParameters (Function.update current p v) rest).1,
          (updateVIB34DParameters (Function.update current p v) rest).2)

/-- **C9** (counterexample).  With a stored value of `1/2` for every
parameter, an update of `hue` to `1/2 + 10⁻⁹` — a change of only `10⁻⁹`,
far below any small epsilon such as `10⁻⁶` — is still forwarded to the
external sink: the adapter has no epsilon tolerance, so the claim that
updates within epsilon are suppressed is false. -/
theorem C9_counterexample :
    (updateVIB34DParameters (fun _ => 1/2) [("hue", 1/2 + 1/1000000000)]).1
        = [("hue", 1/2 + 1/1000000000)] ∧
      |(1/2 + 1/1000000000 : ℚ) - 1/2| ≤ 1/1000000 := by
  constructor
  · norm_num [updateVIB34DParameters]
  · rw [show (1/2 + 1/1000000000 : ℚ) - 1/2 = 1/1000000000 by ring]
    rw [abs_of_pos (by norm_num)]
    norm_num

/-- **C9** (amended).  The adapter forwards a single-parameter update to
the external sink iff the new value differs from the previously forwarded
value *at all* (exact `!==` comparison, epsilon = 0); when the new value
exactly equals the stored one, no sink call is made and the stored value
is unchanged. -/
theorem C9_forward_iff_changed (current : String → ℚ) (p : String) (v : ℚ) :
    updateVIB34DParameters current [(p, v)]
      = if current p = v then ([], current)
        else ([(p, v)], Function.update current p v) := by
  by_cases h : current p = v
  · simp [updateVIB34DParameters, h]
  · simp [updateVIB34DParameters, h]

/-! ## Unified Coherence Engine (`CorrectedVIB34DIntegration`,
src/src/core/CorrectedVIB34DIntegration.js)

The trigonometric parts of the code use `Math.sin`/`Math.cos`/`Math.PI`/
`Math.log2`, so the coherence state and the derived visualizer parameters
are modelled over `ℝ`. -/

/-- JavaScript `x || d` over `ℝ`. -/
noncomputable def jsOrR (x d : ℝ) : ℝ := if x = 0 then d else x

/-- JavaScript truncation toward zero, as used by the `%` remainder
operator. -/
noncomputable def jsTrunc (x : ℝ) : ℤ := if 0 ≤ x then ⌊x⌋ else ⌈x⌉

/-- JavaScript `x % y`: the remainder `x - y × trunc(x / y)`, which keeps
the sign of `x` (so it can be negative). -/
noncomputable def jsRem (x y : ℝ) : ℝ := x - y * (jsTrunc (x / y) : ℝ)

/-- The fields of `this.coherenceState` written by `updateCoherenceState`
(CorrectedVIB34DIntegration.js lines 242-262): beat phase, the three
harmonic phases, the four energy levels, spectral centroid, tempo. -/
structure CoherenceState where
  beatPhase : ℝ
  harmonic0 : ℝ
  harmonic1 : ℝ
  harmonic2 : ℝ
  bassEnergy : ℝ
  midEnergy : ℝ
  trebleEnergy : ℝ
  totalEnergy : ℝ
  spectralCentroid : ℝ
  tempo : ℝ

/-- The fields of `audioData` read by `updateCoherenceState`: per-band
energies, total energy and the (director-side) spectral centroid. -/
structure AudioSnapshot where
  bassEnergy : ℚ
  midEnergy : ℚ
  trebleEnergy : ℚ
  totalEnergy : ℚ
  spectralCentroid : ℚ

/-- The beat-phase ratio `beatInfo.timeSinceLastBeat / (60000 / beatInfo.bpm)`
of `updateCoherenceState` (line 246), with `beatInfo = getBeatInfo()` taken
at wall-clock time `now` (`Date.now()` inside `getBeatInfo`, line 441). -/
def beatPhaseRatio (s : BeatState) (now : ℚ) : ℚ :=
  (getBeatInfo s now).timeSinceLastBeat / (60000 / (getBeatInfo s now).bpm)

/-- `updateCoherenceState` (CorrectedVIB34DIntegration.js lines 242-262):
`beatPhase = ratio × π × 2`, harmonics at `×2`, `×1.5`, `×1.25`, energy
levels copied from the audio analysis (`|| 0` is the identity on plain
numbers), `spectralCentroid = audioData.spectralCentroid || 440`,
`tempo = beatInfo.bpm || 120`.  The wall-clock reading `now` is an explicit
input because the source obtains it from `Date.now()`, not from the audio
frame. -/
noncomputable def updateCoherenceState (s : BeatState) (audio : AudioSnapshot)
    (now : ℚ) : CoherenceState :=
  { beatPhase := (beatPhaseRatio s now : ℝ) * Real.pi * 2
    harmonic0 := (beatPhaseRatio s now : ℝ) * Real.pi * 2 * 2
    harmonic1 := (beatPhaseRatio s now : ℝ) * Real.pi * 2 * 1.5
    harmonic2 := (beatPhaseRatio s now : ℝ) * Real.pi * 2 * 1.25
    bassEnergy := (audio.bassEnergy : ℝ)
    midEnergy := (audio.midEnergy : ℝ)
    trebleEnergy := (audio.trebleEnergy : ℝ)
    totalEnergy := (audio.totalEnergy : ℝ)
    spectralCentroid := (jsOr audio.spectralCentroid 440 : ℝ)
    tempo := (jsOr s.currentBPM 120 : ℝ) }

/-- `glitchIntensity` inside `calculateVisualFeedbackEffects`
(CorrectedVIB34DIntegration.js lines 319-322):
`min(1, total > 0.8 ? total × Math.random() × 0.5 : 0)`, with the
`Math.random()` sample as an explicit input. -/
noncomputable def glitchIntensity (total random : ℝ) : ℝ :=
  min 1 (if 0.8 < total then total * random * 0.5 else 0)

/-- An all-silent audio snapshot. -/
def silentAudio : AudioSnapshot :=
  { bassEnergy := 0, midEnergy := 0, trebleEnergy := 0, totalEnergy := 0,
    spectralCentroid := 0 }

/-- **C4** (counterexample).  Replaying the *same* audio snapshot through
the *same* fresh tracker state at wall-clock reading 500ms versus 1000ms
yields different `CoherenceState.beatPhase` values (`2π` versus `4π`): the
coherence state depends on `Date.now()`, not only on the frame data, so
two replays of an identical frame sequence are not numerically identical. -/
theorem C4_counterexample :
    (updateCoherenceState initialBeatState silentAudio 500).beatPhase
      ≠ (updateCoherenceState initialBeatState silentAudio 1000).beatPhase := by
  have h1 : beatPhaseRatio initialBeatState 500 = 1 := by
    norm_num [beatPhaseRatio, getBeatInfo, initialBeatState]
  have h2 : beatPhaseRatio initialBeatState 1000 = 2 := by
    norm_num [beatPhaseRatio, getBeatInfo, initialBeatState]
  simp only [updateCoherenceState, h1, h2]
  push_cast
  intro h
  nlinarith [Real.pi_pos]

/-- **C4** (amended).  The per-tick coherence update is *injective* in the
wall-clock reading: for any tracker state with a nonzero stored BPM and any
frame data, two different `Date.now()` readings always produce different
`beatPhase` values.  Replay determinism therefore holds only when the
wall-clock readings (and the `Math.random()` samples of the visual-feedback
path, cf. `glitchIntensity`) are replayed along with the frames. -/
theorem C4_clock_dependence (s : BeatState) (audio : AudioSnapshot)
    (t1 t2 : ℚ) (hbpm : s.currentBPM ≠ 0) (hne : t1 ≠ t2) :
    (updateCoherenceState s audio t1).beatPhase
      ≠ (updateCoherenceState s audio t2).beatPhase := by
  intro h
  apply hne
  simp only [updateCoherenceState] at h
  have h2 : ((beatPhaseRatio s t1 : ℚ) : ℝ) = ((beatPhaseRatio s t2 : ℚ) : ℝ) := by
    have hpi2 : (Real.pi * 2 : ℝ) ≠ 0 := by
      positivity
    have h' : ((beatPhaseRatio s t1 : ℚ) : ℝ) * (Real.pi * 2)
        = ((beatPhaseRatio s t2 : ℚ) : ℝ) * (Real.pi * 2) := by
      ring_nf
      ring_nf at h
      linarith [h]
    exact mul_right_cancel₀ hpi2 h'
  have hr : beatPhaseRatio s t1 = beatPhaseRatio s t2 := by
    exact_mod_cast h2
  unfold beatPhaseRatio getBeatInfo at hr
  dsimp only at hr
  have hden : (60000 : ℚ) / s.currentBPM ≠ 0 :=
    div_ne_zero (by norm_num) hbpm
  rw [div_eq_div_iff hden hden] at hr
  have h3 := mul_right_cancel₀ hden hr
  linarith [h3]

/-- Witness for the amended C4: the fresh tracker (BPM 120 ≠ 0) at
wall-clock readings 250ms and 750ms. -/
theorem C4_clock_dependence_witness :
    initialBeatState.currentBPM ≠ 0 ∧ (250 : ℚ) ≠ 750 ∧
      (updateCoherenceState initialBeatState silentAudio 250).beatPhase
        ≠ (updateCoherenceState initialBeatState silentAudio 750).beatPhase :=
  ⟨by norm_num [initialBeatState], by norm_num,
    C4_clock_dependence initialBeatState silentAudio 250 750
      (by norm_num [initialBeatState]) (by norm_num)⟩

/-- The named parameter set handed to the external VIB34D sink by
`calculateCoherentParameters`. -/
structure VIB34DParams where
  rot4dXW : ℝ
  rot4dYW : ℝ
  rot4dZW : ℝ
  gridDensity : ℝ
  morphFactor : ℝ
  chaos : ℝ
  speed : ℝ
  hue : ℝ
  intensity : ℝ
  saturation : ℝ
  geometry : ℤ

/-- `calculateCoherentParameters` (CorrectedVIB34DIntegration.js
lines 264-298), field by field: unclamped rotation products, clamped grid
density, harmonic morph factor, clamped chaos, clamped speed, spectral hue
through the JavaScript `%` remainder, linear intensity/saturation, floored
geometry index.  `complexityScore` is `audioData.complexityScore`, with the
source's `|| 0.5` falsy fallback. -/
noncomputable def calculateCoherentParameters (cs : CoherenceState)
    (complexityScore : ℝ) : VIB34DParams :=
  { rot4dXW := Real.sin cs.beatPhase * cs.bassEnergy * 2
    rot4dYW := Real.cos (cs.beatPhase * 1.5) * cs.midEnergy * 2
    rot4dZW := Real.sin (cs.beatPhase * 0.7) * cs.trebleEnergy * 2
    gridDensity := max 5 (min 100 (30 + cs.totalEnergy * 50))
    morphFactor := 0.3 + Real.sin cs.harmonic0 * 0.4
    chaos := min 1 (jsOrR complexityScore 0.5)
    speed := max 0.1 (min 3 (cs.tempo / 120))
    hue := jsRem (Real.logb 2 (cs.spectralCentroid / 440) * 0.1 + 0.5) 1
    intensity := 0.4 + cs.totalEnergy * 0.6
    saturation := 0.6 + cs.totalEnergy * 0.4
    geometry := ⌊min 8 (jsOrR complexityScore 0.5 * 8)⌋ }

/-- A loud-bass frame: bass (and total) band energy 10. -/
def loudBassAudio : AudioSnapshot :=
  { bassEnergy := 10, midEnergy := 0, trebleEnergy := 0, totalEnergy := 10,
    spectralCentroid := 440 }

/-- **C3** (counterexample).  Starting from the fresh tracker, reading the
loud-bass frame at wall-clock 125ms puts the coherence state at
`beatPhase = π/2` with bass energy 10, and the forwarded
`rot4dXW = sin(π/2) × 10 × 2 = 20` — far outside the documented rotation
range ≈[-6.28, 6.28].  The rotation products are not clamped, so the claim
that every forwarded parameter stays in its documented range is false. -/
theorem C3_counterexample :
    (calculateCoherentParameters
        (updateCoherenceState initialBeatState loudBassAudio 125) 0.5).rot4dXW = 20 ∧
      ¬ |(calculateCoherentParameters
          (updateCoherenceState initialBeatState loudBassAudio 125) 0.5).rot4dXW|
        ≤ 6.28 := by
  have hratio : beatPhaseRatio initialBeatState 125 = 1/4 := by
    norm_num [beatPhaseRatio, getBeatInfo, initialBeatState]
  have hphase : (updateCoherenceState initialBeatState loudBassAudio 125).beatPhase
      = Real.pi / 2 := by
    simp only [updateCoherenceState, hratio]
    push_cast
    ring
  have h20 : (calculateCoherentParameters
      (updateCoherenceState initialBeatState loudBassAudio 125) 0.5).rot4dXW = 20 := by
    simp only [calculateCoherentParameters, updateCoherenceState, loudBassAudio, hratio]
    push_cast
    rw [show ((1 : ℝ)/4) * Real.pi * 2 = Real.pi / 2 by ring, Real.sin_pi_div_two]
    norm_num
  refine ⟨h20, ?_⟩
  rw [h20, abs_of_pos (by norm_num)]
  norm_num

/-- **C3** (amended).  For every coherence state and every complexity score
in `[0, 1]`: `gridDensity` lies in `[5, 100]`, `speed` in `[0.1, 3]`
(hence in the documented `[0, 3]`), `chaos` in `[0, 1]`, `geometry` is an
integer in `[0, 8]`, and `morphFactor` lies in `[-0.1, 0.7]` (so it can
drop *below* the documented `[0, 1]`).  The 4D rotation angles are bounded
only by twice the corresponding band energy — they exceed ±6.28 whenever a
band energy exceeds 3.14, and `intensity`, `saturation` and `hue` likewise
track the unclamped energy/centroid — so only the explicitly clamped
parameters respect their documented ranges. -/
theorem C3_parameter_ranges (cs : CoherenceState) (complexityScore : ℝ)
    (h0 : 0 ≤ complexityScore) (h1 : complexityScore ≤ 1) :
    5 ≤ (calculateCoherentParameters cs complexityScore).gridDensity ∧
      (calculateCoherentParameters cs complexityScore).gridDensity ≤ 100 ∧
      0.1 ≤ (calculateCoherentParameters cs complexityScore).speed ∧
      (calculateCoherentParameters cs complexityScore).speed ≤ 3 ∧
      -0.1 ≤ (calculateCoherentParameters cs complexityScore).morphFactor ∧
      (calculateCoherentParameters cs complexityScore).morphFactor ≤ 0.7 ∧
      |(calculateCoherentParameters cs complexityScore).rot4dXW|
        ≤ 2 * |cs.bassEnergy| ∧
      |(calculateCoherentParameters cs complexityScore).rot4dYW|
        ≤ 2 * |cs.midEnergy| ∧
      |(calculateCoherentParameters cs complexityScore).rot4dZW|
        ≤ 2 * |cs.trebleEnergy| ∧
      0 ≤ (calculateCoherentParameters cs complexityScore).chaos ∧
      (calculateCoherentParameters cs complexityScore).chaos ≤ 1 ∧
      0 ≤ (calculateCoherentParameters cs complexityScore).geometry ∧
      (calculateCoherentParameters cs complexityScore).geometry ≤ 8 := by
  have hfallback : 0 ≤ jsOrR complexityScore 0.5 ∧ jsOrR complexityScore 0.5 ≤ 1 := by
    unfold jsOrR
    split
    · norm_num
    · exact ⟨h0, h1⟩
  refine ⟨le_max_left _ _, max_le (by norm_num) (min_le_left _ _),
    le_max_left _ _, max_le (by norm_num) (min_le_left _ _), ?_, ?_, ?_, ?_, ?_,
    ?_, ?_, ?_, ?_⟩
  · have hs := Real.neg_one_le_sin cs.harmonic0
    simp only [calculateCoherentParameters]
    nlinarith [hs]
  · have hs := Real.sin_le_one cs.harmonic0
    simp only [calculateCoherentParameters]
    nlinarith [hs]
  · have hs := Real.abs_sin_le_one cs.beatPhase
    simp only [calculateCoherentParameters]
    rw [abs_mul, abs_mul, abs_two]
    linarith [mul_le_mul_of_nonneg_right hs (abs_nonneg cs.bassEnergy)]
  · have hc := Real.abs_cos_le_one (cs.beatPhase * 1.5)
    simp only [calculateCoherentParameters]
    rw [abs_mul, abs_mul, abs_two]
    linarith [mul_le_mul_of_nonneg_right hc (abs_nonneg cs.midEnergy)]
  · have hs := Real.abs_sin_le_one (cs.beatPhase * 0.7)
    simp only [calculateCoherentParameters]
    rw [abs_mul, abs_mul, abs_two]
    linarith [mul_le_mul_of_nonneg_right hs (abs_nonneg cs.trebleEnergy)]
  · simp only [calculateCoherentParameters]
    exact le_min (by norm_num) hfallback.1
  · simp only [calculateCoherentParameters]
    exact min_le_left _ _
  · simp only [calculateCoherentParameters]
    rw [Int.le_floor]
    push_cast
    refine le_min (by norm_num) ?_
    nlinarith [hfallback.1]
  · simp only [calculateCoherentParameters]
    have : (⌊min (8 : ℝ) (jsOrR complexityScore 0.5 * 8)⌋ : ℤ) ≤ ⌊(8 : ℝ)⌋ :=
      Int.floor_le_floor (min_le_left _ _)
    simpa using this

/-- The coherence state produced from the fresh tracker on a silent frame
at wall-clock 0. -/
noncomputable def silentCoherence : CoherenceState :=
  updateCoherenceState initialBeatState silentAudio 0

/-- Witness for the amended C3: the silent coherence state with complexity
score 0 (which the source's `|| 0.5` fallback maps to 0.5). -/
theorem C3_parameter_ranges_witness :
    (0 : ℝ) ≤ 0 ∧ (0 : ℝ) ≤ 1 ∧
      (5 ≤ (calculateCoherentParameters silentCoherence 0).gridDensity ∧
        (calculateCoherentParameters silentCoherence 0).gridDensity ≤ 100 ∧
        0.1 ≤ (calculateCoherentParameters silentCoherence 0).speed ∧
        (calculateCoherentParameters silentCoherence 0).speed ≤ 3 ∧
        -0.1 ≤ (calculateCoherentParameters silentCoherence 0).morphFactor ∧
        (calculateCoherentParameters silentCoherence 0).morphFactor ≤ 0.7 ∧
        |(calculateCoherentParameters silentCoherence 0).rot4dXW|
          ≤ 2 * |silentCoherence.bassEnergy| ∧
        |(calculateCoherentParameters silentCoherence 0).rot4dYW|
          ≤ 2 * |silentCoherence.midEnergy| ∧
        |(calculateCoherentParameters silentCoherence 0).rot4dZW|
          ≤ 2 * |silentCoherence.trebleEnergy| ∧
        0 ≤ (calculateCoherentParameters silentCoherence 0).chaos ∧
        (calculateCoherentParameters silentCoherence 0).chaos ≤ 1 ∧
        0 ≤ (calculateCoherentParameters silentCoherence 0).geometry ∧
        (calculateCoherentParameters silentCoherence 0).geometry ≤ 8) :=
  ⟨le_refl 0, zero_le_one,
    C3_parameter_ranges silentCoherence 0 (le_refl 0) zero_le_one⟩

end Vib34d
